import Mathlib

set_option maxRecDepth 2000

/-!
Shallow embedding of the SteamBundleAPI acquisition and price-integrity
pipeline (Python sources under src/scraper and src/scripts), together with
theorems settling the specification claims about it.

Conventions of the embedding:
* Python floats carrying monetary amounts are modelled as rationals (ℚ);
  Python ints as ℤ or ℕ.
* Python `round(x)` (banker rounding, half to even) is modelled by `pyRound`,
  and `round(x, 1)` by `pyRound1`.
* A Python value that may be `None` is modelled as an `Option`.
* Timestamps (datetime values and `time.time()`) are modelled as numbers;
  `datetime.fromisoformat` composed with `isoformat` is the identity, so
  snapshot dates are kept as numbers directly.
* Functions performing network calls are modelled as pure transition
  functions taking the HTTP response as an explicit argument and returning,
  besides their result, the list of issued upstream requests and the updated
  shared rate-limit state.
* String-processing code is embedded on `List Char`, with a `String` wrapper
  where the Python function receives a string.
-/

/-- Python `round(q)`: round half to even, as an integer. -/
def pyRound (q : ℚ) : ℤ :=
  let n : ℤ := Int.floor q
  let r : ℚ := q - n
  if r < 1/2 then n
  else if 1/2 < r then n + 1
  else if n % 2 = 0 then n else n + 1

/-- Python `round(q, 1)`: round half to even at one decimal digit. -/
def pyRound1 (q : ℚ) : ℚ :=
  ((pyRound (q * 10) : ℚ)) / 10

/-- Numeric value of a list of decimal digit characters (most significant first). -/
def digitsToNat (cs : List Char) : ℕ :=
  cs.foldl (fun a c => a * 10 + (c.toNat - 48)) 0

/-- Python `float(s)` restricted to strings made of decimal digits and at most
one period, which is the only shape reachable in `_parse_price` after
cleaning and separator normalisation.  Returns `none` exactly when Python
`float` raises `ValueError` on such a string: more than one period, no digit
at all, or a character outside digits and periods. -/
def pyFloatOfChars (cs : List Char) : Option ℚ :=
  if cs.all (fun c => c.isDigit || c == '.') && cs.count '.' ≤ 1 && cs.any Char.isDigit then
    some ((digitsToNat (cs.takeWhile (fun c => c ≠ '.')) : ℚ) +
      (digitsToNat ((cs.dropWhile (fun c => c ≠ '.')).drop 1) : ℚ) /
        (10 : ℚ) ^ ((cs.dropWhile (fun c => c ≠ '.')).drop 1).length)
  else none

/-- Python `s.lower()` on the ASCII range, as used by the free-price test of
`_parse_price`. -/
def pyLower (cs : List Char) : List Char :=
  cs.map Char.toLower

/-- `re.sub(r"[^\d,\.]", "", price_text)`: keep only digits, commas and periods. -/
def priceCleanChars (cs : List Char) : List Char :=
  cs.filter (fun c => c.isDigit || c == ',' || c == '.')

/-- Separator normalisation of `BundleDataMapper._parse_price`: when both a
comma and a period occur, every period is removed and every comma becomes a
decimal point; when only commas occur they become decimal points; otherwise
the text is unchanged. -/
def priceNormalize (cs : List Char) : List Char :=
  if ',' ∈ cs ∧ '.' ∈ cs then
    (cs.filter (fun c => c ≠ '.')).map (fun c => if c == ',' then '.' else c)
  else if ',' ∈ cs then
    cs.map (fun c => if c == ',' then '.' else c)
  else cs

/-- `BundleDataMapper._parse_price` (src/scraper/mapper.py, lines 161-187),
on the character list of the price text. -/
def parse_price_chars (cs : List Char) : Option ℚ :=
  if cs = [] ∨ pyLower cs = ['f', 'r', 'e', 'e'] then some 0
  else pyFloatOfChars (priceNormalize (priceCleanChars cs))

/-- `BundleDataMapper._parse_price` on the price text itself. -/
def parse_price (price_text : String) : Option ℚ :=
  parse_price_chars price_text.toList

/-- Currency detection table of `BundleDataMapper._extract_currency`
(src/scraper/mapper.py, lines 189-212), on the character list of the price
text.  The symbol table is checked in order; with no match, a bare dollar
sign means USD and anything else falls back to BRL. -/
def extract_currency (cs : List Char) : String :=
  if ['R', '$'] <:+: cs then "BRL"
  else if ['R', '＄'] <:+: cs then "BRL"
  else if ['€'] <:+: cs then "EUR"
  else if ['£'] <:+: cs then "GBP"
  else if ['¥'] <:+: cs then "JPY"
  else if ['₩'] <:+: cs then "KRW"
  else if ['C', 'D', 'N', '$'] <:+: cs then "CAD"
  else if ['A', '$'] <:+: cs then "AUD"
  else if ['$'] <:+: cs then "USD"
  else "BRL"

/-- Entry of a games list: the Python side passes around small dicts with an
`app_id` and optionally a name and url; only presence and count matter to
the embedded claims. -/
structure GameEntry where
  app_id : Option ℤ := none
  name : Option String := none
  url : Option String := none
deriving DecidableEq, Repr

/-- The price sub-dictionary carried by a bundle record, after the
`dict.get` defaults of the consuming code are applied: `discount` defaults
to 0 and `currency` to BRL. -/
structure PriceData where
  final : Option ℚ
  original : Option ℚ
  discount : ℤ
  currency : String
deriving DecidableEq, Repr

/-- A mapped bundle record (the dictionaries produced by the scrapers and
consumed by filters and persistence).  Asset, platform and VR metadata are
carried by the Python dicts but never read by any embedded claim, so they
are omitted here. -/
structure BundleDict where
  id : String
  name : Option String
  url : String
  price : Option PriceData
  games : List GameEntry
  needs_browser_scraping : Bool
  coming_soon : Bool
deriving DecidableEq, Repr

/-- One element of `included_items` in an API store item. -/
structure IncludedItem where
  id : ℤ
  item_type : ℤ
deriving DecidableEq, Repr

/-- One entry of `response.store_items` in the batch-lookup API response.
`claimed_discount_pct` stands for any upstream-claimed discount field in the
raw payload: the mapping code never reads it. -/
structure StoreItem where
  id : Option ℤ := none
  name : Option String := none
  final_price_in_cents : Option ℤ := none
  price_before_bundle_discount : Option ℤ := none
  store_url_path : Option String := none
  included_items : List IncludedItem := []
  visible : Bool := true
  claimed_discount_pct : Option ℤ := none
deriving DecidableEq, Repr

/-- Python truthiness of an optional string: `None` and the empty string are
falsy. -/
def truthyStr : Option String → Bool
  | none => false
  | some s => decide (s ≠ "")

/-- Python `str(x)` for an optional integer (`str(None)` is the string
`None`). -/
def pyStrOfOptInt : Option ℤ → String
  | some n => toString n
  | none => "None"

/-- The per-item mapping of `BundleScraper.scrape_bundles_batch`
(src/scraper/scraper.py, lines 256-310): skip items without a truthy name,
default the final price to 0 cents and the original price to the final
price, drop ghost items (both prices zero), recompute the discount percent
from the two amounts, and emit the record dictionary. -/
def mapStoreItem (bundle_data : StoreItem) : Option BundleDict :=
  if truthyStr bundle_data.name = false then none
  else
    let final_price_cents := bundle_data.final_price_in_cents.getD 0
    let original_price_cents := bundle_data.price_before_bundle_discount.getD final_price_cents
    if final_price_cents = 0 ∧ original_price_cents = 0 then none
    else
      let discount_pct : ℤ :=
        if 0 < original_price_cents then
          pyRound (((original_price_cents : ℚ) - (final_price_cents : ℚ)) /
            (original_price_cents : ℚ) * 100)
        else 0
      some
        { id := pyStrOfOptInt bundle_data.id
          name := bundle_data.name
          url := "https://store.steampowered.com/" ++
            (bundle_data.store_url_path.getD ("bundle/" ++ pyStrOfOptInt bundle_data.id ++ "/"))
          price := some
            { final := some ((final_price_cents : ℚ) / 100)
              original := some ((original_price_cents : ℚ) / 100)
              discount := discount_pct
              currency := "BRL" }
          games := (bundle_data.included_items.filter (fun it => decide (it.item_type = 0))).map
            (fun it => { app_id := some it.id })
          needs_browser_scraping := false
          coming_soon := !bundle_data.visible }

/-- The 200-response mapping of `BundleScraper.scrape_bundle_details`
(src/scraper/scraper.py, lines 125-197): empty `store_items` yields `None`,
otherwise the first item is mapped like the batch items, except that the
url fallback uses the requested bundle id. -/
def mapStoreItemDetail (bundle_id : String) (store_items : List StoreItem) : Option BundleDict :=
  match store_items with
  | [] => none
  | bundle_data :: _ =>
    if truthyStr bundle_data.name = false then none
    else
      let final_price_cents := bundle_data.final_price_in_cents.getD 0
      let original_price_cents := bundle_data.price_before_bundle_discount.getD final_price_cents
      if final_price_cents = 0 ∧ original_price_cents = 0 then none
      else
        let discount_pct : ℤ :=
          if 0 < original_price_cents then
            pyRound (((original_price_cents : ℚ) - (final_price_cents : ℚ)) /
              (original_price_cents : ℚ) * 100)
          else 0
        some
          { id := pyStrOfOptInt bundle_data.id
            name := bundle_data.name
            url := "https://store.steampowered.com/" ++
              (bundle_data.store_url_path.getD ("bundle/" ++ bundle_id ++ "/"))
            price := some
              { final := some ((final_price_cents : ℚ) / 100)
                original := some ((original_price_cents : ℚ) / 100)
                discount := discount_pct
                currency := "BRL" }
            games := (bundle_data.included_items.filter (fun it => decide (it.item_type = 0))).map
              (fun it => { app_id := some it.id })
            needs_browser_scraping := false
            coming_soon := !bundle_data.visible }

/-- An HTTP response from the upstream batch-lookup API, as far as the
scraper reads it: the status code, the optional Retry-After header, and the
decoded `response.store_items` list of a 200 body. -/
structure HttpResp where
  status : ℤ
  retry_after : Option ℤ := none
  store_items : List StoreItem := []
deriving DecidableEq, Repr

/-- Outcome of one scraper call: the upstream requests it issued (each with
the identifier list it carried), its return value, the shared
`blocked_until` state after the call, and the total time slept. -/
structure FetchOutcome (α : Type) where
  requests : List (List String)
  result : α
  blocked_until : ℚ
  slept : ℚ
deriving DecidableEq, Repr

/-- `BundleScraper.scrape_bundle_details` (src/scraper/scraper.py, lines
81-205) as a transition function: when the shared block deadline lies in the
future the call sleeps `min(5, remaining)` and returns `None` without any
request; otherwise one request is issued and the response is dispatched on
its status (429 and 403 set the block deadline and sleep out the wait). -/
def scrape_bundle_details (blocked_until now : ℚ) (bundle_id : String) (resp : HttpResp) :
    FetchOutcome (Option BundleDict) :=
  if now < blocked_until then
    { requests := [], result := none, blocked_until := blocked_until
      slept := ((min 5 (Int.floor (blocked_until - now)) : ℤ) : ℚ) }
  else if resp.status = 429 then
    { requests := [[bundle_id]], result := none
      blocked_until := now + ((resp.retry_after.getD 60 : ℤ) : ℚ)
      slept := ((resp.retry_after.getD 60 : ℤ) : ℚ) }
  else if resp.status = 403 then
    { requests := [[bundle_id]], result := none, blocked_until := now + 120, slept := 120 }
  else if resp.status = 200 then
    { requests := [[bundle_id]], result := mapStoreItemDetail bundle_id resp.store_items
      blocked_until := blocked_until, slept := 0 }
  else
    { requests := [[bundle_id]], result := none, blocked_until := blocked_until, slept := 0 }

/-- `BundleScraper.scrape_bundles_batch` (src/scraper/scraper.py, lines
207-320) as a transition function.  An empty identifier list returns at
once; otherwise the request is issued unconditionally — this path performs
no check of `blocked_until`, it only writes it on 429 and 403 — carrying at
most the first 100 identifiers, and a 200 response is mapped item by item. -/
def scrape_bundles_batch (blocked_until now : ℚ) (bundle_ids : List String) (resp : HttpResp) :
    FetchOutcome (List BundleDict) :=
  if bundle_ids = [] then
    { requests := [], result := [], blocked_until := blocked_until, slept := 0 }
  else if resp.status = 429 then
    { requests := [bundle_ids.take 100], result := []
      blocked_until := now + ((resp.retry_after.getD 60 : ℤ) : ℚ)
      slept := ((resp.retry_after.getD 60 : ℤ) : ℚ) }
  else if resp.status = 403 then
    { requests := [bundle_ids.take 100], result := [], blocked_until := now + 120, slept := 120 }
  else if resp.status = 200 then
    { requests := [bundle_ids.take 100], result := resp.store_items.filterMap mapStoreItem
      blocked_until := blocked_until, slept := 0 }
  else
    { requests := [bundle_ids.take 100], result := [], blocked_until := blocked_until, slept := 0 }

/-- The batching loop of `BundleScraper.scrape_all_bundles`
(src/scraper/scraper.py, lines 344-359): `for i in range(0, len(ids), 100)`
slices consecutive chunks of up to 100 identifiers.  The first argument is
fuel, always instantiated with the list length (the loop advances by 100 ≥ 1
positions per iteration, so the length bounds the iteration count). -/
def chunksGo : ℕ → List String → List (List String)
  | 0, _ => []
  | _ + 1, [] => []
  | n + 1, a :: t => ((a :: t).take 100) :: chunksGo n ((a :: t).drop 100)

/-- The list of per-iteration identifier slices of `scrape_all_bundles`. -/
def scrape_all_batches (bundle_ids : List String) : List (List String) :=
  chunksGo bundle_ids.length bundle_ids

/-- The diff computation of `discover_with_diff`
(src/scripts/discover_with_diff.py, lines 49-52): `added = new - old`,
`removed = old - new` as set differences. -/
def discover_with_diff (old_ids new_ids : Finset ℕ) : Finset ℕ × Finset ℕ :=
  (new_ids \ old_ids, old_ids \ new_ids)

/-- One entry of the `price_history` JSON column, as written by
`BundleModel.add_price_snapshot` (src/scraper/database.py, lines 50-66).
The `date` is the `utcnow` timestamp at append time. -/
structure Snapshot where
  date : ℤ
  final : ℚ
  original : Option ℚ
  discount : ℤ
  currency : Option String
deriving DecidableEq, Repr

/-- The columns of `BundleModel` (src/scraper/database.py, lines 14-48) that
the embedded claims read or write.  A freshly constructed, unflushed model
instance has `none` in every column without an assigned value; the SQL
column defaults (`discount` 0, `currency` BRL) are applied at insert. -/
structure StoredBundle where
  id : String
  name : Option String
  url : Option String
  image_url : Option String
  final_price : Option ℚ
  original_price : Option ℚ
  discount : Option ℤ
  currency : Option String
  games : List GameEntry
  games_count : ℕ
  is_valid : Bool
  is_nsfw : Bool
  needs_browser_scraping : Bool
  price_history : List Snapshot
  first_seen : ℤ
  last_updated : ℤ
deriving DecidableEq, Repr

/-- The candidate dictionary handed to `Database.save_bundle`.  A `none`
field models an absent key (so the consuming `dict.get` falls back to its
default); `price = none` models a price value that is not a dictionary,
while an absent price key yields the empty dictionary, i.e.
`some { final := none, original := none, discount := 0, currency := BRL }`.
The Python code cannot distinguish an absent key from a key explicitly set
to `None`; the embedding identifies the two. -/
structure BundleUpsert where
  id : String
  name : Option String := none
  url : Option String := none
  images_header : Option String := none
  games : Option (List GameEntry) := none
  is_valid : Option Bool := none
  is_nsfw : Option Bool := none
  needs_browser_scraping : Option Bool := none
  price : Option PriceData := some { final := none, original := none, discount := 0, currency := "BRL" }
deriving DecidableEq, Repr

/-- `BundleModel.add_price_snapshot` (src/scraper/database.py, lines 50-66):
append one snapshot carrying the current wall-clock date and the currency
column as it stands at call time. -/
def add_price_snapshot (b : StoredBundle) (now : ℤ) (final : ℚ) (original : Option ℚ)
    (discount : ℤ) : List Snapshot :=
  b.price_history ++
    [{ date := now, final := final, original := original, discount := discount,
       currency := b.currency }]

/-- The insert branch of `Database.save_bundle` (src/scraper/database.py,
lines 234-246): construct a fresh model instance; price columns stay unset
until the price block below runs. -/
def saveBundleInsert (bundle_data : BundleUpsert) (now : ℤ) : StoredBundle :=
  { id := bundle_data.id
    name := bundle_data.name
    url := bundle_data.url
    image_url := bundle_data.images_header
    final_price := none
    original_price := none
    discount := none
    currency := none
    games := bundle_data.games.getD []
    games_count := (bundle_data.games.getD []).length
    is_valid := bundle_data.is_valid.getD true
    is_nsfw := bundle_data.is_nsfw.getD false
    needs_browser_scraping := bundle_data.needs_browser_scraping.getD false
    price_history := []
    first_seen := now
    last_updated := now }

/-- The update branch of `Database.save_bundle` (src/scraper/database.py,
lines 247-262): overlay the candidate fields onto the stored row; absent
fields keep the stored value, except `needs_browser_scraping` whose
`dict.get` default is `False`, and `games_count` which is recomputed from
the candidate games with default `[]`. -/
def saveBundleUpdate (b : StoredBundle) (bundle_data : BundleUpsert) : StoredBundle :=
  { b with
    name := match bundle_data.name with | some n => some n | none => b.name
    url := match bundle_data.url with | some u => some u | none => b.url
    image_url := match bundle_data.images_header with
      | some h => if h ≠ "" then some h else b.image_url
      | none => b.image_url
    games := bundle_data.games.getD b.games
    games_count := (bundle_data.games.getD []).length
    is_valid := bundle_data.is_valid.getD b.is_valid
    is_nsfw := bundle_data.is_nsfw.getD b.is_nsfw
    needs_browser_scraping := bundle_data.needs_browser_scraping.getD false }

/-- The price block of `Database.save_bundle` (src/scraper/database.py,
lines 264-279): when the candidate price is a dictionary, append a snapshot
to the history exactly when a final amount is present and it or the
discount differs from the stored `final_price` / `discount` columns, then
overwrite the four price columns with the candidate values. -/
def saveBundlePrice (b : StoredBundle) (bundle_data : BundleUpsert) (now : ℤ) : StoredBundle :=
  match bundle_data.price with
  | none => b
  | some price_data =>
    let history :=
      match price_data.final with
      | some final =>
        if b.final_price ≠ some final ∨ b.discount ≠ some price_data.discount then
          add_price_snapshot b now final price_data.original price_data.discount
        else b.price_history
      | none => b.price_history
    { b with
      price_history := history
      final_price := price_data.final
      original_price := price_data.original
      discount := some price_data.discount
      currency := some price_data.currency }

/-- `Database.save_bundle` (src/scraper/database.py, lines 219-288) as a
pure transition on the stored row for one id: insert or update, run the
price block, stamp `last_updated`, and apply the SQL column defaults on a
fresh insert (flush). -/
def save_bundle (stored : Option StoredBundle) (bundle_data : BundleUpsert) (now : ℤ) :
    StoredBundle :=
  let b0 :=
    match stored with
    | none => saveBundleInsert bundle_data now
    | some b => saveBundleUpdate b bundle_data
  let b1 := saveBundlePrice b0 bundle_data now
  let b2 := { b1 with last_updated := now }
  match stored with
  | none => { b2 with discount := some (b2.discount.getD 0), currency := some (b2.currency.getD "BRL") }
  | some _ => b2

/-- The result dictionary of `BundleModel.get_real_discount`; fields absent
from a given return dictionary are `none`. -/
structure DiscountAnalysis where
  is_real : Bool
  reason : String
  avg_regular : Option ℚ := none
  claimed_original : Option ℚ := none
  inflation_percent : Option ℚ := none
deriving DecidableEq, Repr

/-- The regular-price collection loop of `BundleModel.get_real_discount`
(src/scraper/database.py, lines 78-86): final amounts of history entries
dated within the last 30 days (2592000 seconds) whose discount is 0 and
whose final amount is truthy, i.e. nonzero. -/
def regular_prices (now : ℤ) (hist : List Snapshot) : List ℚ :=
  (hist.filter (fun entry =>
    decide (now - 2592000 ≤ entry.date) && decide (entry.discount = 0) &&
      decide (entry.final ≠ 0))).map Snapshot.final

/-- The `avg_regular_price` local of `get_real_discount`: arithmetic mean
of a list of amounts (`sum(xs) / len(xs)`). -/
def avgOf (xs : List ℚ) : ℚ :=
  xs.sum / xs.length

/-- `BundleModel.get_real_discount` (src/scraper/database.py, lines 68-110):
fewer than two history entries is insufficient history; no regular-price
observation in the last 30 days is inconclusive; a truthy claimed original
price above 1.5 times the average regular price is flagged as inflated,
with the inflation percent rounded to one decimal digit.  The Python locals
`regular_prices` and `avg_regular_price` are the named functions
`regular_prices` and `avgOf` applied at their use sites. -/
def get_real_discount (now : ℤ) (b : StoredBundle) : DiscountAnalysis :=
  if b.price_history.length < 2 then
    { is_real := true, reason := "Sem histórico suficiente" }
  else if regular_prices now b.price_history = [] then
    { is_real := true, reason := "Sem preços regulares no histórico" }
  else
    match b.original_price with
    | some original_price =>
      if original_price ≠ 0 then
        if avgOf (regular_prices now b.price_history) * (3/2) < original_price then
          { is_real := false
            reason := "Preço original inflado"
            avg_regular := some (avgOf (regular_prices now b.price_history))
            claimed_original := some original_price
            inflation_percent :=
              some (pyRound1 ((original_price / avgOf (regular_prices now b.price_history) - 1) * 100)) }
        else
          { is_real := true, reason := "Preço condizente com histórico"
            avg_regular := some (avgOf (regular_prices now b.price_history)) }
      else
        { is_real := true, reason := "Preço condizente com histórico"
          avg_regular := some (avgOf (regular_prices now b.price_history)) }
    | none =>
      { is_real := true, reason := "Preço condizente com histórico"
        avg_regular := some (avgOf (regular_prices now b.price_history)) }

/-- `BundleDataMapper.validate_bundle` (src/scraper/mapper.py, lines
214-236): id, name and price must be truthy, and the games list must be
nonempty. -/
def validate_bundle (bundle_data : BundleDict) : Bool :=
  if bundle_data.id = "" then false
  else if truthyStr bundle_data.name = false then false
  else if bundle_data.price.isNone then false
  else if bundle_data.games.isEmpty then false
  else true

/-- `BundleFilter._is_valid_bundle` (src/scraper/filters.py, lines 43-69):
id, name and price must be truthy, and when the price is a dictionary it
must carry a final amount; the games check present in the mapper validator
is commented out here (bundles without enumerated games stay valid). -/
def is_valid_bundle (bundle : BundleDict) : Bool :=
  if bundle.id = "" then false
  else if truthyStr bundle.name = false then false
  else if bundle.price.isNone then false
  else
    match bundle.price with
    | some price_data => if price_data.final.isNone then false else true
    | none => true

example : parse_price "R$ 49,99" = some (4999/100) := by
  rw [parse_price, show "R$ 49,99".toList = ['R', '$', ' ', '4', '9', ',', '9', '9'] from by decide,
    parse_price_chars, if_neg (by decide),
    show priceNormalize (priceCleanChars ['R', '$', ' ', '4', '9', ',', '9', '9'])
      = ['4', '9', '.', '9', '9'] from by decide,
    pyFloatOfChars, if_pos (by decide),
    show List.takeWhile (fun c => decide (c ≠ '.')) ['4', '9', '.', '9', '9'] = ['4', '9'] from by decide,
    show List.drop 1 (List.dropWhile (fun c => decide (c ≠ '.')) ['4', '9', '.', '9', '9'])
      = ['9', '9'] from by decide,
    show digitsToNat ['4', '9'] = 49 from by decide,
    show digitsToNat ['9', '9'] = 99 from by decide,
    show (['9', '9'] : List Char).length = 2 from by decide]
  norm_num

example : parse_price "FREE" = some 0 := by decide
example : parse_price "abc" = none := by decide
example : parse_price "1.2.3" = none := by decide

/-! General lemmas about the batching loop. -/

theorem chunksGo_length (fuel : ℕ) :
    ∀ l : List String, l.length ≤ fuel → (chunksGo fuel l).length = (l.length + 99) / 100 := by
  induction fuel with
  | zero =>
    intro l hl
    have h0 : l = [] := List.length_eq_zero.mp (Nat.le_zero.mp hl)
    subst h0
    simp [chunksGo]
  | succ n ih =>
    intro l hl
    cases l with
    | nil => simp [chunksGo]
    | cons a t =>
      have hdrop : ((a :: t).drop 100).length = (a :: t).length - 100 := List.length_drop 100 _
      have hle : ((a :: t).drop 100).length ≤ n := by
        rw [hdrop]
        simp only [List.length_cons] at hl ⊢
        omega
      simp only [chunksGo, List.length_cons, ih _ hle, hdrop]
      omega

theorem chunksGo_flatten (fuel : ℕ) :
    ∀ l : List String, l.length ≤ fuel → (chunksGo fuel l).flatten = l := by
  induction fuel with
  | zero =>
    intro l hl
    have h0 : l = [] := List.length_eq_zero.mp (Nat.le_zero.mp hl)
    subst h0
    simp [chunksGo]
  | succ n ih =>
    intro l hl
    cases l with
    | nil => simp [chunksGo]
    | cons a t =>
      have hle : ((a :: t).drop 100).length ≤ n := by
        rw [List.length_drop]
        simp only [List.length_cons] at hl ⊢
        omega
      simp only [chunksGo, List.flatten_cons, ih _ hle]
      exact List.take_append_drop 100 _

theorem chunksGo_mem (fuel : ℕ) :
    ∀ l : List String, ∀ c ∈ chunksGo fuel l, c.length ≤ 100 ∧ c ≠ [] := by
  induction fuel with
  | zero =>
    intro l c hc
    simp [chunksGo] at hc
  | succ n ih =>
    intro l c hc
    cases l with
    | nil => simp [chunksGo] at hc
    | cons a t =>
      simp only [chunksGo, List.mem_cons] at hc
      rcases hc with hc | hc
      · subst hc
        constructor
        · rw [List.length_take]
          exact min_le_left _ _
        · simp [List.take_succ_cons]
      · exact ih _ c hc

/-- Store item with original 2000 cents, final 1000 cents and an
upstream-claimed discount of 13 percent, used as the concrete discount
recomputation vector. -/
def demoItem2000 : StoreItem :=
  { name := some "Bundle", final_price_in_cents := some 1000
    price_before_bundle_discount := some 2000, claimed_discount_pct := some 13 }

/-- Claim C4: for every batch-response entry with original price > 0, the
mapped discount percent equals round((original − final) / original × 100),
independent of any upstream-claimed discount field; with original price 0
the mapped discount percent is 0; original 2000 and final 1000 map to
discount 50. -/
theorem mapStoreItem_discount_recomputed :
    (∀ item : StoreItem, truthyStr item.name = true →
      (0 < item.price_before_bundle_discount.getD (item.final_price_in_cents.getD 0) →
        ∃ rec p, mapStoreItem item = some rec ∧ rec.price = some p ∧
          p.discount = pyRound
            (((item.price_before_bundle_discount.getD (item.final_price_in_cents.getD 0) : ℚ) -
              (item.final_price_in_cents.getD 0 : ℚ)) /
              (item.price_before_bundle_discount.getD (item.final_price_in_cents.getD 0) : ℚ) * 100)) ∧
      (item.price_before_bundle_discount.getD (item.final_price_in_cents.getD 0) = 0 →
        item.final_price_in_cents.getD 0 ≠ 0 →
        ∃ rec p, mapStoreItem item = some rec ∧ rec.price = some p ∧ p.discount = 0)) ∧
    (∀ (item : StoreItem) (d1 d2 : Option ℤ),
      mapStoreItem { item with claimed_discount_pct := d1 } =
        mapStoreItem { item with claimed_discount_pct := d2 }) ∧
    (∃ rec p, mapStoreItem demoItem2000 = some rec ∧ rec.price = some p ∧ p.discount = 50) := by
  refine ⟨?_, ?_, ?_⟩
  · intro item hname
    constructor
    · intro ho
      rw [mapStoreItem, hname]
      rw [if_neg (by simp)]
      rw [if_neg (fun h => absurd h.2 (ne_of_gt ho))]
      rw [if_pos ho]
      exact ⟨_, _, rfl, rfl, rfl⟩
    · intro ho hf
      rw [mapStoreItem, hname]
      rw [if_neg (by simp)]
      rw [if_neg (fun h => absurd h.1 hf)]
      rw [if_neg (by rw [ho]; exact lt_irrefl 0)]
      exact ⟨_, _, rfl, rfl, rfl⟩
  · intro item d1 d2
    rfl
  · rw [show mapStoreItem demoItem2000 = mapStoreItem demoItem2000 from rfl, mapStoreItem]
    rw [if_neg (by decide)]
    rw [if_neg (by decide)]
    rw [if_pos (by decide)]
    refine ⟨_, _, rfl, rfl, ?_⟩
    show pyRound _ = 50
    rw [show demoItem2000.price_before_bundle_discount.getD (demoItem2000.final_price_in_cents.getD 0)
        = 2000 from by decide,
      show demoItem2000.final_price_in_cents.getD 0 = 1000 from by decide]
    norm_num [show pyRound (50 : ℚ) = 50 from by with_unfolding_all decide]

/-- Witness for `mapStoreItem_discount_recomputed` at the concrete item:
name truthy, original 2000 > 0, and the recomputed formula gives 50. -/
theorem mapStoreItem_discount_recomputed_witness :
    ∃ rec p, mapStoreItem demoItem2000 = some rec ∧ rec.price = some p ∧
      p.discount = pyRound
        (((demoItem2000.price_before_bundle_discount.getD (demoItem2000.final_price_in_cents.getD 0) : ℚ) -
          (demoItem2000.final_price_in_cents.getD 0 : ℚ)) /
          (demoItem2000.price_before_bundle_discount.getD (demoItem2000.final_price_in_cents.getD 0) : ℚ) * 100) :=
  (mapStoreItem_discount_recomputed.1 demoItem2000 (by decide)).1 (by decide)

/-- Claim C5: a batch-response entry whose resolved final and original
prices are both 0 produces no record: the mapper drops it, and the batch
result of a 200 response containing only that entry is empty. -/
theorem mapStoreItem_ghost_dropped :
    ∀ item : StoreItem,
      item.final_price_in_cents.getD 0 = 0 →
      item.price_before_bundle_discount.getD (item.final_price_in_cents.getD 0) = 0 →
      mapStoreItem item = none ∧
      (∀ (bu now : ℚ) (ids : List String), ids ≠ [] →
        (scrape_bundles_batch bu now ids
          { status := 200, store_items := [item] }).result = []) := by
  intro item h1 h2
  have hm : mapStoreItem item = none := by
    rw [mapStoreItem]
    by_cases hname : truthyStr item.name = false
    · rw [if_pos hname]
    · rw [if_neg hname, if_pos ⟨h1, h2⟩]
  refine ⟨hm, ?_⟩
  intro bu now ids hids
  rw [scrape_bundles_batch, if_neg hids, if_neg (show ¬(200 : ℤ) = 429 from by decide),
    if_neg (show ¬(200 : ℤ) = 403 from by decide), if_pos (show (200 : ℤ) = 200 from rfl)]
  simp [hm]

/-- Witness for `mapStoreItem_ghost_dropped` at a concrete ghost entry. -/
theorem mapStoreItem_ghost_dropped_witness :
    mapStoreItem { name := some "Ghost" } = none ∧
    (scrape_bundles_batch 0 0 ["7"]
      { status := 200, store_items := [{ name := some "Ghost" }] }).result = [] := by
  have h := mapStoreItem_ghost_dropped { name := some "Ghost" } (by decide) (by decide)
  exact ⟨h.1, h.2 0 0 ["7"] (by decide)⟩

/-- Claim C6: the fetch loop partitions the identifier list into consecutive
chunks — their concatenation is the input and there are exactly
ceil(n/100) of them, each nonempty with at most 100 identifiers — and every
nonempty chunk causes exactly one upstream batch call carrying at most 100
identifiers; 250 identifiers give three calls of sizes 100, 100 and 50. -/
theorem scrape_all_batches_ceiling :
    (∀ bundle_ids : List String,
      (scrape_all_batches bundle_ids).length = (bundle_ids.length + 99) / 100 ∧
      (scrape_all_batches bundle_ids).flatten = bundle_ids ∧
      (∀ b ∈ scrape_all_batches bundle_ids, b.length ≤ 100 ∧ b ≠ [])) ∧
    (∀ (b : List String) (bu now : ℚ) (resp : HttpResp), b ≠ [] →
      (scrape_bundles_batch bu now b resp).requests = [b.take 100] ∧
      (b.take 100).length ≤ 100) ∧
    (scrape_all_batches (List.replicate 250 "b")).map List.length = [100, 100, 50] := by
  refine ⟨?_, ?_, by decide⟩
  · intro bundle_ids
    exact ⟨chunksGo_length _ _ le_rfl, chunksGo_flatten _ _ le_rfl, chunksGo_mem _ _⟩
  · intro b bu now resp hb
    constructor
    · rw [scrape_bundles_batch, if_neg hb]
      split_ifs <;> rfl
    · rw [List.length_take]
      exact min_le_left _ _

/-- Witness for `scrape_all_batches_ceiling`: one nonempty chunk issues one
call with its identifiers. -/
theorem scrape_all_batches_ceiling_witness :
    (scrape_bundles_batch 0 0 ["1", "2"] { status := 200 }).requests = [["1", "2"]] := by
  have h := (scrape_all_batches_ceiling.2.1 ["1", "2"] 0 0 { status := 200 } (by decide)).1
  rw [h]
  decide

/-- Claim C7: the discovery diff satisfies added = new minus old and
removed = old minus new, elementwise; on known set 1,2,3 and scan result
2,3,4 it returns added 4 and removed 1. -/
theorem discover_with_diff_correct :
    (∀ (old_ids new_ids : Finset ℕ) (x : ℕ),
      (x ∈ (discover_with_diff old_ids new_ids).1 ↔ x ∈ new_ids ∧ x ∉ old_ids) ∧
      (x ∈ (discover_with_diff old_ids new_ids).2 ↔ x ∈ old_ids ∧ x ∉ new_ids)) ∧
    discover_with_diff {1, 2, 3} {2, 3, 4} = ({4}, {1}) := by
  refine ⟨?_, by decide⟩
  intro old_ids new_ids x
  exact ⟨Finset.mem_sdiff, Finset.mem_sdiff⟩

/-- A successful batch response carrying one priced store item. -/
def demoRespOk : HttpResp :=
  { status := 200, store_items := [demoItem2000] }

/-- Counterexample to claim C2: with the shared state blocked (now 0 is
before the block deadline 100), a batch fetch call still issues its
upstream request and returns a nonempty result — the batch path does not
short-circuit. -/
theorem scrape_batch_issues_request_while_blocked :
    (0 : ℚ) < 100 ∧
    (scrape_bundles_batch 100 0 ["10"] demoRespOk).requests = [["10"]] ∧
    (scrape_bundles_batch 100 0 ["10"] demoRespOk).result.length = 1 := by
  refine ⟨by norm_num, by decide, by decide⟩

/-- Claim C2 amended: while blocked, only the single-identifier detail
fetch short-circuits — no request, a `None` result, unchanged block state,
and a sleep of at most the remaining block duration (capped at 5 seconds) —
whereas a batch fetch with a nonempty identifier list always issues exactly
one upstream request, whatever the block state. -/
theorem scrape_blocked_short_circuit_paths :
    (∀ (bu now : ℚ) (bundle_id : String) (resp : HttpResp), now < bu →
      (scrape_bundle_details bu now bundle_id resp).requests = [] ∧
      (scrape_bundle_details bu now bundle_id resp).result = none ∧
      (scrape_bundle_details bu now bundle_id resp).blocked_until = bu ∧
      (scrape_bundle_details bu now bundle_id resp).slept ≤ bu - now) ∧
    (∀ (bu now : ℚ) (bundle_ids : List String) (resp : HttpResp), bundle_ids ≠ [] →
      (scrape_bundles_batch bu now bundle_ids resp).requests = [bundle_ids.take 100]) := by
  constructor
  · intro bu now bundle_id resp h
    rw [scrape_bundle_details, if_pos h]
    refine ⟨rfl, rfl, rfl, ?_⟩
    show ((min 5 (Int.floor (bu - now)) : ℤ) : ℚ) ≤ bu - now
    have h1 : ((min 5 (Int.floor (bu - now)) : ℤ) : ℚ) ≤ ((Int.floor (bu - now) : ℤ) : ℚ) := by
      exact_mod_cast min_le_right _ _
    exact h1.trans (Int.floor_le _)
  · intro bu now bundle_ids resp hb
    rw [scrape_bundles_batch, if_neg hb]
    split_ifs <;> rfl

/-- Witness for `scrape_blocked_short_circuit_paths` at block deadline 100
and current time 0. -/
theorem scrape_blocked_short_circuit_paths_witness :
    (scrape_bundle_details 100 0 "10" demoRespOk).requests = [] ∧
    (scrape_bundle_details 100 0 "10" demoRespOk).result = none ∧
    (scrape_bundles_batch 100 0 ["10"] demoRespOk).requests = [["10"]] := by
  have h1 := scrape_blocked_short_circuit_paths.1 100 0 "10" demoRespOk (by norm_num)
  have h2 := scrape_blocked_short_circuit_paths.2 100 0 ["10"] demoRespOk (by decide)
  exact ⟨h1.1, h1.2.1, by rw [h2]; decide⟩

/-- A mapped record with a truthy id and name, a resolvable final price,
and an empty games list. -/
def demoRecNoGames : BundleDict :=
  { id := "1", name := some "A", url := ""
    price := some { final := some 10, original := none, discount := 0, currency := "BRL" }
    games := [], needs_browser_scraping := false, coming_soon := false }

/-- Counterexample to claim C9: this record has an id, a nonempty name and
a resolvable final price, yet the mapper validator `validate_bundle`
rejects it solely because its games list is empty. -/
theorem validate_bundle_rejects_empty_games :
    demoRecNoGames.id ≠ "" ∧ truthyStr demoRecNoGames.name = true ∧
    demoRecNoGames.price = some
      { final := some 10, original := none, discount := 0, currency := "BRL" } ∧
    demoRecNoGames.games = [] ∧
    validate_bundle demoRecNoGames = false := by
  refine ⟨by decide, by decide, rfl, rfl, by decide⟩

/-- Claim C9 amended: the filter-stage validator `_is_valid_bundle` accepts
every record with truthy id and name and a present final price, regardless
of its games list (in particular when it is empty); the mapper-stage
`validate_bundle` additionally demands a nonempty games list and rejects
every record whose games list is empty. -/
theorem bundle_validators_empty_games_rule :
    (∀ (b : BundleDict) (p : PriceData) (f : ℚ),
      b.id ≠ "" → truthyStr b.name = true → b.price = some p → p.final = some f →
      is_valid_bundle b = true) ∧
    (∀ b : BundleDict, b.games = [] → validate_bundle b = false) := by
  constructor
  · intro b p f hid hname hp hf
    simp [is_valid_bundle, hid, hname, hp, hf]
  · intro b hg
    simp [validate_bundle, hg]

/-- Witness for `bundle_validators_empty_games_rule` at the concrete
empty-games record. -/
theorem bundle_validators_empty_games_rule_witness :
    is_valid_bundle demoRecNoGames = true ∧ validate_bundle demoRecNoGames = false :=
  ⟨bundle_validators_empty_games_rule.1 demoRecNoGames
      { final := some 10, original := none, discount := 0, currency := "BRL" } 10
      (by decide) (by decide) rfl rfl,
    bundle_validators_empty_games_rule.2 demoRecNoGames rfl⟩

/-- Candidate record with final 1000, no discount. -/
def cand1000 : BundleUpsert :=
  { id := "b1", name := some "Bundle"
    price := some { final := some 1000, original := some 1000, discount := 0, currency := "BRL" } }

/-- Candidate record with final 800 at 20 percent discount. -/
def cand800 : BundleUpsert :=
  { id := "b1", name := some "Bundle"
    price := some { final := some 800, original := some 1000, discount := 20, currency := "BRL" } }

/-- Candidate record whose price dictionary carries no final amount (an
unresolvable price). -/
def candNoPrice : BundleUpsert :=
  { id := "b1", name := some "Bundle"
    price := some { final := none, original := none, discount := 0, currency := "BRL" } }

/-- Counterexample to claim C1: after upserting final 1000 at discount 0,
then a candidate without a final amount (which nulls the stored price
columns without appending), the stored history is exactly one snapshot with
final 1000 and discount 0; upserting final 1000 at discount 0 again — a
resolvable candidate identical to the immediately preceding snapshot, with
nonempty history — nevertheless appends a second identical snapshot,
because the code compares against the stored price columns rather than the
last snapshot. -/
theorem save_bundle_dedup_vs_last_snapshot_fails :
    (save_bundle (some (save_bundle none cand1000 0)) candNoPrice 1).price_history.map
      (fun s => (s.final, s.discount)) = [(1000, 0)] ∧
    cand1000.price = some { final := some 1000, original := some 1000, discount := 0, currency := "BRL" } ∧
    (save_bundle
      (some (save_bundle (some (save_bundle none cand1000 0)) candNoPrice 1))
      cand1000 2).price_history.map (fun s => (s.final, s.discount)) = [(1000, 0), (1000, 0)] := by
  refine ⟨by decide, rfl, by decide⟩

/-- Claim C1 amended: for an upsert with a resolvable candidate price, a
snapshot is appended if and only if the candidate final amount or discount
differs from the stored record's current price columns (which coincide with
the last snapshot only as long as every upsert carries a resolvable price);
on a fresh insert the single initial snapshot is written.  The two concrete
scenarios of the claim hold: an identical repeat upsert leaves one
snapshot, and final 1000 then final 800 at 20 percent yields the two
snapshots in order. -/
theorem save_bundle_snapshot_append_rule :
    (∀ (b : StoredBundle) (cand : BundleUpsert) (now : ℤ) (p : PriceData) (f : ℚ),
      cand.price = some p → p.final = some f →
      (save_bundle (some b) cand now).price_history =
        (if b.final_price ≠ some f ∨ b.discount ≠ some p.discount then
          b.price_history ++
            [{ date := now, final := f, original := p.original, discount := p.discount,
               currency := b.currency }]
        else b.price_history)) ∧
    (∀ (cand : BundleUpsert) (now : ℤ) (p : PriceData) (f : ℚ),
      cand.price = some p → p.final = some f →
      (save_bundle none cand now).price_history =
        [{ date := now, final := f, original := p.original, discount := p.discount,
           currency := none }]) ∧
    (save_bundle (some (save_bundle none cand1000 0)) cand1000 1).price_history.length = 1 ∧
    (save_bundle (some (save_bundle none cand1000 0)) cand800 1).price_history.map
      (fun s => (s.final, s.discount)) = [(1000, 0), (800, 20)] := by
  refine ⟨?_, ?_, by decide, by decide⟩
  · intro b cand now p f hp hf
    simp only [save_bundle, saveBundleUpdate, saveBundlePrice, add_price_snapshot, hp, hf]
  · intro cand now p f hp hf
    simp [save_bundle, saveBundleInsert, saveBundlePrice, add_price_snapshot, hp, hf]

/-- Witness for `save_bundle_snapshot_append_rule`: the stored-update rule
applied at the concrete second upsert with final 800 at 20 percent. -/
theorem save_bundle_snapshot_append_rule_witness :
    (save_bundle (some (save_bundle none cand1000 0)) cand800 1).price_history =
      (if (save_bundle none cand1000 0).final_price ≠ some 800 ∨
          (save_bundle none cand1000 0).discount ≠ some 20 then
        (save_bundle none cand1000 0).price_history ++
          [{ date := 1, final := 800, original := some 1000, discount := 20,
             currency := (save_bundle none cand1000 0).currency }]
      else (save_bundle none cand1000 0).price_history) :=
  save_bundle_snapshot_append_rule.1 (save_bundle none cand1000 0) cand800 1
    { final := some 800, original := some 1000, discount := 20, currency := "BRL" } 800 rfl rfl

/-- Stored record with three regular-price snapshots of 1000 within the
30-day window and a claimed original price of 2500: the concrete
authenticity test vector. -/
def histB : StoredBundle :=
  { id := "1", name := some "A", url := none, image_url := none
    final_price := some 1250, original_price := some 2500, discount := some 50
    currency := some "BRL", games := [], games_count := 0, is_valid := true
    is_nsfw := false, needs_browser_scraping := false
    price_history := [⟨0, 1000, some 1000, 0, some "BRL"⟩, ⟨0, 1000, some 1000, 0, some "BRL"⟩,
      ⟨0, 1000, some 1000, 0, some "BRL"⟩]
    first_seen := 0, last_updated := 0 }

/-- Stored record with two regular-price snapshots of 300 within the 30-day
window and a claimed original price of 500: 500 exceeds 1.5 times the
average 300, and 500/300 − 1 is not rounded to an integer by the code. -/
def histC : StoredBundle :=
  { id := "1", name := some "A", url := none, image_url := none
    final_price := some 250, original_price := some 500, discount := some 50
    currency := some "BRL", games := [], games_count := 0, is_valid := true
    is_nsfw := false, needs_browser_scraping := false
    price_history := [⟨0, 300, none, 0, none⟩, ⟨0, 300, none, 0, none⟩]
    first_seen := 0, last_updated := 0 }

/-- Stored record with a single snapshot. -/
def histOne : StoredBundle :=
  { id := "1", name := some "A", url := none, image_url := none
    final_price := some 1000, original_price := some 1000, discount := some 0
    currency := some "BRL", games := [], games_count := 0, is_valid := true
    is_nsfw := false, needs_browser_scraping := false
    price_history := [⟨0, 1000, some 1000, 0, some "BRL"⟩]
    first_seen := 0, last_updated := 0 }

/-- Counterexample to claim C3: on a record whose zero-discount snapshots
average 300 and whose claimed original is 500, the analyzer flags the
discount but reports inflation percent 66.7 — the value rounded to one
decimal digit — while the claim asserts the integer round, which is 67. -/
theorem get_real_discount_inflation_not_integer_round :
    get_real_discount 0 histC =
      { is_real := false, reason := "Preço original inflado", avg_regular := some 300
        claimed_original := some 500, inflation_percent := some (667/10) } ∧
    pyRound (((500 : ℚ)/300 - 1) * 100) = 67 ∧
    ((667 : ℚ)/10) ≠ ((67 : ℤ) : ℚ) := by
  refine ⟨?_, by with_unfolding_all decide, by with_unfolding_all decide⟩
  rw [get_real_discount, if_neg (by decide),
    show regular_prices 0 histC.price_history = [300, 300] from by decide]
  rw [if_neg (by decide)]
  rw [show avgOf [300, 300] = 300 from by with_unfolding_all decide]
  norm_num [show histC.original_price = some 500 from rfl,
    show pyRound1 ((200 : ℚ) / 3) = 667/10 from by with_unfolding_all decide]

/-- Claim C3 amended: the analyzer is a pure function of the record (and
the current time): fewer than 2 history entries give insufficient history;
at least 2 entries but no zero-discount snapshot with nonzero final amount
within the last 30 days gives a real verdict; otherwise, with avgRegular
the mean final amount of those snapshots, the verdict is not-real exactly
when the claimed original price is present, nonzero, and above avgRegular
times 1.5, and then the reported inflation percent is
(claimedOriginal/avgRegular − 1) × 100 rounded to one decimal digit; the
concrete vector with three 1000-regular snapshots and claimed original 2500
yields not-real with inflation percent 150. -/
theorem get_real_discount_characterization :
    (∀ (now : ℤ) (b : StoredBundle), b.price_history.length < 2 →
      get_real_discount now b = { is_real := true, reason := "Sem histórico suficiente" }) ∧
    (∀ (now : ℤ) (b : StoredBundle), ¬ b.price_history.length < 2 →
      regular_prices now b.price_history = [] →
      get_real_discount now b = { is_real := true, reason := "Sem preços regulares no histórico" }) ∧
    (∀ (now : ℤ) (b : StoredBundle) (op : ℚ), ¬ b.price_history.length < 2 →
      regular_prices now b.price_history ≠ [] →
      b.original_price = some op → op ≠ 0 →
      avgOf (regular_prices now b.price_history) * (3/2) < op →
      get_real_discount now b =
        { is_real := false
          reason := "Preço original inflado"
          avg_regular := some (avgOf (regular_prices now b.price_history))
          claimed_original := some op
          inflation_percent :=
            some (pyRound1 ((op / avgOf (regular_prices now b.price_history) - 1) * 100)) }) ∧
    (∀ (now : ℤ) (b : StoredBundle), ¬ b.price_history.length < 2 →
      regular_prices now b.price_history ≠ [] →
      ((get_real_discount now b).is_real = false ↔
        ∃ op, b.original_price = some op ∧ op ≠ 0 ∧
          avgOf (regular_prices now b.price_history) * (3/2) < op)) ∧
    get_real_discount 0 histB =
      { is_real := false, reason := "Preço original inflado", avg_regular := some 1000
        claimed_original := some 2500, inflation_percent := some 150 } := by
  refine ⟨?_, ?_, ?_, ?_, ?_⟩
  · intro now b h
    rw [get_real_discount, if_pos h]
  · intro now b h2 hreg
    rw [get_real_discount, if_neg h2, if_pos hreg]
  · intro now b op h2 hreg hop h0 hgt
    rw [get_real_discount, if_neg h2, if_neg hreg, hop]
    simp only []
    rw [if_pos h0, if_pos hgt]
  · intro now b h2 hreg
    rw [get_real_discount, if_neg h2, if_neg hreg]
    cases hop : b.original_price with
    | none =>
      simp
    | some op =>
      simp only []
      by_cases h0 : op = 0
      · subst h0
        simp
      · by_cases hgt : avgOf (regular_prices now b.price_history) * (3/2) < op
        · rw [if_pos h0, if_pos hgt]
          exact ⟨fun _ => ⟨op, rfl, h0, hgt⟩, fun _ => rfl⟩
        · rw [if_pos h0, if_neg hgt]
          constructor
          · intro h
            exact absurd h (by simp)
          · rintro ⟨op2, hop2, _, hgt2⟩
            cases hop2
            exact absurd hgt2 hgt
  · rw [get_real_discount, if_neg (by decide),
      show regular_prices 0 histB.price_history = [1000, 1000, 1000] from by decide]
    rw [if_neg (by decide)]
    rw [show avgOf [1000, 1000, 1000] = 1000 from by with_unfolding_all decide]
    norm_num [show histB.original_price = some 2500 from rfl,
      show pyRound1 (150 : ℚ) = 150 from by with_unfolding_all decide]

/-- Witness for `get_real_discount_characterization`: the
insufficient-history rule applied to a record with a single snapshot. -/
theorem get_real_discount_characterization_witness :
    get_real_discount 0 histOne = { is_real := true, reason := "Sem histórico suficiente" } :=
  get_real_discount_characterization.1 0 histOne (by decide)

/-- Counterexample to claim C8: in a price text containing both separators
the code always takes the comma as the decimal separator, not the rightmost
one: "1,234.56" parses to 1.23456, not to 1234.56. -/
theorem parse_price_rightmost_decimal_fails :
    parse_price "1,234.56" = some (123456/100000) ∧
    ((123456 : ℚ)/100000) ≠ ((123456 : ℚ)/100) := by
  constructor
  · rw [parse_price, show "1,234.56".toList = ['1', ',', '2', '3', '4', '.', '5', '6'] from by decide,
      parse_price_chars, if_neg (by decide),
      show priceNormalize (priceCleanChars ['1', ',', '2', '3', '4', '.', '5', '6'])
        = ['1', '.', '2', '3', '4', '5', '6'] from by decide,
      pyFloatOfChars, if_pos (by decide),
      show List.takeWhile (fun c => decide (c ≠ '.')) ['1', '.', '2', '3', '4', '5', '6']
        = ['1'] from by decide,
      show List.drop 1 (List.dropWhile (fun c => decide (c ≠ '.')) ['1', '.', '2', '3', '4', '5', '6'])
        = ['2', '3', '4', '5', '6'] from by decide,
      show digitsToNat ['1'] = 1 from by decide,
      show digitsToNat ['2', '3', '4', '5', '6'] = 23456 from by decide,
      show (['2', '3', '4', '5', '6'] : List Char).length = 5 from by decide]
    norm_num
  · with_unfolding_all decide

/-- Claim C8 amended: when the cleaned price text contains both a comma and
a period, the parser removes every period as a thousands separator and
takes the comma as the decimal separator, regardless of which comes last:
"1.234,56" parses to 1234.56 but "1,234.56" parses to 1.23456. -/
theorem parse_price_comma_decimal_rule :
    (∀ cs : List Char,
      ¬(cs = [] ∨ pyLower cs = ['f', 'r', 'e', 'e']) →
      ',' ∈ priceCleanChars cs → '.' ∈ priceCleanChars cs →
      parse_price_chars cs =
        pyFloatOfChars (((priceCleanChars cs).filter (fun c => c ≠ '.')).map
          (fun c => if c == ',' then '.' else c))) ∧
    parse_price "1.234,56" = some (123456/100) ∧
    parse_price "1,234.56" = some (123456/100000) := by
  refine ⟨?_, ?_, ?_⟩
  · intro cs h hcm hdot
    rw [parse_price_chars, if_neg h, priceNormalize, if_pos ⟨hcm, hdot⟩]
  · rw [parse_price, show "1.234,56".toList = ['1', '.', '2', '3', '4', ',', '5', '6'] from by decide,
      parse_price_chars, if_neg (by decide),
      show priceNormalize (priceCleanChars ['1', '.', '2', '3', '4', ',', '5', '6'])
        = ['1', '2', '3', '4', '.', '5', '6'] from by decide,
      pyFloatOfChars, if_pos (by decide),
      show List.takeWhile (fun c => decide (c ≠ '.')) ['1', '2', '3', '4', '.', '5', '6']
        = ['1', '2', '3', '4'] from by decide,
      show List.drop 1 (List.dropWhile (fun c => decide (c ≠ '.')) ['1', '2', '3', '4', '.', '5', '6'])
        = ['5', '6'] from by decide,
      show digitsToNat ['1', '2', '3', '4'] = 1234 from by decide,
      show digitsToNat ['5', '6'] = 56 from by decide,
      show (['5', '6'] : List Char).length = 2 from by decide]
    norm_num
  · rw [parse_price, show "1,234.56".toList = ['1', ',', '2', '3', '4', '.', '5', '6'] from by decide,
      parse_price_chars, if_neg (by decide),
      show priceNormalize (priceCleanChars ['1', ',', '2', '3', '4', '.', '5', '6'])
        = ['1', '.', '2', '3', '4', '5', '6'] from by decide,
      pyFloatOfChars, if_pos (by decide),
      show List.takeWhile (fun c => decide (c ≠ '.')) ['1', '.', '2', '3', '4', '5', '6']
        = ['1'] from by decide,
      show List.drop 1 (List.dropWhile (fun c => decide (c ≠ '.')) ['1', '.', '2', '3', '4', '5', '6'])
        = ['2', '3', '4', '5', '6'] from by decide,
      show digitsToNat ['1'] = 1 from by decide,
      show digitsToNat ['2', '3', '4', '5', '6'] = 23456 from by decide,
      show (['2', '3', '4', '5', '6'] : List Char).length = 5 from by decide]
    norm_num

/-- Witness for `parse_price_comma_decimal_rule`: the both-separators rule
applied to the character list of "1.234,56". -/
theorem parse_price_comma_decimal_rule_witness :
    parse_price_chars ['1', '.', '2', '3', '4', ',', '5', '6'] =
      pyFloatOfChars (((priceCleanChars ['1', '.', '2', '3', '4', ',', '5', '6']).filter
        (fun c => c ≠ '.')).map (fun c => if c == ',' then '.' else c)) :=
  parse_price_comma_decimal_rule.1 ['1', '.', '2', '3', '4', ',', '5', '6']
    (by decide) (by decide) (by decide)

/-- Every character surviving the cleaning step is a digit, a comma or a
period. -/
theorem priceCleanChars_mem {cs : List Char} {c : Char} (h : c ∈ priceCleanChars cs) :
    c.isDigit = true ∨ c = ',' ∨ c = '.' := by
  rcases List.mem_filter.mp h with ⟨_, hp⟩
  have h3 := by simpa [Bool.or_eq_true, beq_iff_eq] using hp
  tauto

/-- The comma-to-period map sends digits, commas and periods to digits and
periods. -/
theorem comma_map_digit_dot {d : Char} (hd : d.isDigit = true ∨ d = ',' ∨ d = '.') :
    ((if d == ',' then '.' else d).isDigit || (if d == ',' then '.' else d) == '.') = true := by
  by_cases hcomma : d = ','
  · simp [hcomma]
  · have hne : (d == ',') = false := by simp [hcomma]
    rw [hne]
    simp only [if_false, Bool.or_eq_true, beq_iff_eq]
    rcases hd with hdig | hcm | hdot
    · exact Or.inl hdig
    · exact absurd hcm hcomma
    · exact Or.inr hdot

/-- After cleaning and separator normalisation, every character of the
price text is a decimal digit or a period: commas have been mapped to
periods and everything else was stripped by the cleaning step. -/
theorem priceNormalize_all_digit_dot (cs : List Char) :
    (priceNormalize (priceCleanChars cs)).all (fun c => c.isDigit || c == '.') = true := by
  rw [List.all_eq_true]
  intro c hc
  rw [priceNormalize] at hc
  split_ifs at hc with h1 h2
  · rcases List.mem_map.mp hc with ⟨d, hd, hdc⟩
    rcases List.mem_filter.mp hd with ⟨hdm, _⟩
    subst hdc
    exact comma_map_digit_dot (priceCleanChars_mem hdm)
  · rcases List.mem_map.mp hc with ⟨d, hd, hdc⟩
    subst hdc
    exact comma_map_digit_dot (priceCleanChars_mem hd)
  · rcases priceCleanChars_mem hc with hdig | hcm | hdot
    · simp [hdig]
    · exact absurd (hcm ▸ hc) h2
    · simp [hdot]

/-- Claim C10: the price-text parser is total — for every string it yields
0 on empty or free (case-insensitive) input, `None` exactly when the
cleaned and normalised text is not readable as a number (more than one
decimal point or no digit at all), and otherwise the parsed amount, namely
the value of the digits around the decimal point. -/
theorem parse_price_total (s : String) :
    ((s.toList = [] ∨ pyLower s.toList = ['f', 'r', 'e', 'e']) → parse_price s = some 0) ∧
    (¬(s.toList = [] ∨ pyLower s.toList = ['f', 'r', 'e', 'e']) →
      ((parse_price s = none ↔
        ¬((priceNormalize (priceCleanChars s.toList)).count '.' ≤ 1 ∧
          (priceNormalize (priceCleanChars s.toList)).any Char.isDigit = true)) ∧
      ((priceNormalize (priceCleanChars s.toList)).count '.' ≤ 1 →
        (priceNormalize (priceCleanChars s.toList)).any Char.isDigit = true →
        parse_price s = some
          ((digitsToNat ((priceNormalize (priceCleanChars s.toList)).takeWhile
              (fun c => decide (c ≠ '.'))) : ℚ) +
            (digitsToNat (((priceNormalize (priceCleanChars s.toList)).dropWhile
              (fun c => decide (c ≠ '.'))).drop 1) : ℚ) /
              (10 : ℚ) ^ (((priceNormalize (priceCleanChars s.toList)).dropWhile
                (fun c => decide (c ≠ '.'))).drop 1).length)))) := by
  constructor
  · intro h
    rw [parse_price, parse_price_chars, if_pos h]
  · intro h
    have hall := priceNormalize_all_digit_dot s.toList
    rw [parse_price, parse_price_chars, if_neg h, pyFloatOfChars, hall, Bool.true_and]
    by_cases hcd : (priceNormalize (priceCleanChars s.toList)).count '.' ≤ 1 ∧
        (priceNormalize (priceCleanChars s.toList)).any Char.isDigit = true
    · rw [if_pos (by rw [hcd.2, Bool.and_true, decide_eq_true_eq]; exact hcd.1)]
      constructor
      · exact ⟨fun hn => absurd hn (Option.some_ne_none _), fun hn => absurd hcd hn⟩
      · intro hc hd
        rfl
    · rw [if_neg (fun hg => hcd (by
        rw [Bool.and_eq_true, decide_eq_true_eq] at hg
        exact ⟨hg.1, hg.2⟩))]
      constructor
      · exact ⟨fun _ => hcd, fun _ => rfl⟩
      · intro hc hd
        exact absurd ⟨hc, hd⟩ hcd

/-- Witness for `parse_price_total`: the nonempty, non-free price text
"R$ 49,99" is parsed to its digit value 49 + 99/100. -/
theorem parse_price_total_witness :
    parse_price "R$ 49,99" = some
      ((digitsToNat ((priceNormalize (priceCleanChars "R$ 49,99".toList)).takeWhile
          (fun c => decide (c ≠ '.'))) : ℚ) +
        (digitsToNat (((priceNormalize (priceCleanChars "R$ 49,99".toList)).dropWhile
          (fun c => decide (c ≠ '.'))).drop 1) : ℚ) /
          (10 : ℚ) ^ (((priceNormalize (priceCleanChars "R$ 49,99".toList)).dropWhile
            (fun c => decide (c ≠ '.'))).drop 1).length) :=
  ((parse_price_total "R$ 49,99").2 (by decide)).2 (by decide) (by decide)
